import Mathlib

/-!
Shallow embedding of the `DeviceTracker` class in `loc.py` and proofs about it.

External effects are made explicit:
* the OS discovery scan (`detect_network_devices`) becomes a parameter holding
  the outcome of the external process call, and its text parsing is embedded;
* the registry method `add_device_to_track` takes the fresh scan result and the
  current `tracked_devices` list and returns the boolean result together with
  the new list;
* the polling loop `track_device` becomes a fuel-indexed transition system whose
  per-tick environment records the duration and outcome of the `ping` call and
  whether the log-file append succeeds; the in-memory log, the log file (as a
  list of lines) and the console are fields of the loop state;
* `display_tracking_summary` returns the list of printed lines, with
  `time.ctime` abstracted as a function parameter.
-/

namespace Loc

/-- A discovered device record: the dict `{ip, mac, type}` built by
`detect_network_devices`. Both OS branches always set all three keys. -/
structure Device where
  ip : String
  mac : String
  ty : String
deriving DecidableEq, Inhabited

/-- The identity key used by the duplicate check in `add_device_to_track`
(line 88): `d.get(ip) or d.get(mac)`. Tracked devices always carry an
`ip` key, and Python `or` falls through exactly when that string is empty
(falsy), so the key is `ip` when nonempty, else `mac`. -/
def identityKey (d : Device) : String :=
  if d.ip ≠ "" then d.ip else d.mac

/-- The method `add_device_to_track(device_identifier)` (lines 75-106). The fresh scan
`self.detect_network_devices()` is passed in as `scan`; `tracked` is
`self.tracked_devices`. Returns the boolean result and the new tracked list.
`if not device_identifier` is the emptiness test on a string; the match in the
scan is Python's `next(...)`, i.e. the first device whose `ip` or `mac` equals
the identifier. -/
def add_device_to_track (scan : List Device) (device_identifier : String)
    (tracked : List Device) : Bool × List Device :=
  if device_identifier = "" then
    (false, tracked)
  else if device_identifier ∈ tracked.map identityKey then
    (false, tracked)
  else
    match scan.find? (fun d => d.ip = device_identifier ∨ d.mac = device_identifier) with
    | some matching_device => (true, tracked ++ [matching_device])
    | none => (false, tracked)

/-- The concrete scan used in counterexamples: one device reachable both by
its ip and by its mac, as in the spec's own scenario. -/
def cexDevice : Device :=
  { ip := "192.168.1.50", mac := "AA:BB:CC:DD:EE:FF", ty := "Unknown" }

def cexScan : List Device := [cexDevice]

/-- The device dict passed to `track_device`: the loop reads it only through
`device[ip]` and `device.get(mac, Unknown)`, so the `mac` key may be
absent. -/
structure DevIn where
  ip : String
  mac : Option String
deriving DecidableEq, Inhabited

/-- One Observation record: the `device_status` dict of lines 131-136. The
float `time.time()` value is modelled as a rational. -/
structure Obs where
  timestamp : ℚ
  ip : String
  mac : String
  online : Bool
deriving DecidableEq, Inhabited

/-- Per-tick external environment of the loop body: how long the blocking
`ping` call takes, its outcome (`none` models `subprocess.run` raising an
exception, `some rc` a completed process with exit code `rc`), whether the
log-file append succeeds, any extra real time spent beyond
`time.sleep(interval)`, and the text of the exception when one is raised. -/
structure TickEnv where
  checkDur : ℚ
  pingRes : Option ℤ
  writeOk : Bool
  slack : ℚ
  errMsg : String
deriving Inhabited

/-- The mutable state of one `track_device` run: the current clock, the
in-memory `device_logs` list, the log file as a list of lines, and the console
output. -/
structure LoopState where
  t : ℚ
  logs : List Obs
  file : List String
  console : List String
deriving DecidableEq, Inhabited

/-- The Observation built at a tick (lines 131-136): its timestamp is the
`time.time()` call made right after the ping returns, `online` is
`returncode == 0`, and a missing `mac` key defaults to `"Unknown"`. -/
def mkObs (dev : DevIn) (ts : ℚ) (rc : ℤ) : Obs :=
  { timestamp := ts, ip := dev.ip, mac := dev.mac.getD ("Unknown"),
    online := rc == 0 }

/-- The console line printed by the `except` handler of the loop body. -/
def errLine (dev : DevIn) (e : TickEnv) : String :=
  "Error tracking device " ++ dev.ip ++ ": " ++ e.errMsg

/-- One iteration of the `while` body of `track_device` (lines 120-151),
parameterised by the JSON encoder `enc` standing for `json.dumps`. When the
ping raises, nothing is recorded and the handler prints; when the ping
completes, the Observation is appended to `device_logs` first and the file
append is attempted second, a failure of which is caught by the same handler,
leaving the in-memory append in place. `time.sleep(interval)` sits outside the
`try` block and always runs. -/
def tick (enc : Obs → String) (dev : DevIn) (interval : ℚ) (e : TickEnv)
    (s : LoopState) : LoopState :=
  let t1 := s.t + e.checkDur
  match e.pingRes with
  | none =>
      { t := t1 + interval + e.slack, logs := s.logs, file := s.file,
        console := s.console ++ [errLine dev e] }
  | some rc =>
      let device_status := mkObs dev t1 rc
      let logs1 := s.logs ++ [device_status]
      if e.writeOk then
        { t := t1 + interval + e.slack, logs := logs1,
          file := s.file ++ [enc device_status],
          console := s.console ++ ["Device " ++ dev.ip ++ " status: " ++
            (if device_status.online then "Online" else "Offline")] }
      else
        { t := t1 + interval + e.slack, logs := logs1, file := s.file,
          console := s.console ++ [errLine dev e] }

/-- The `while time.time() - start_time < duration` loop (line 120),
fuel-indexed to make it a Lean function. `k` numbers the ticks so the
environment can script each one; the result is `none` exactly when the fuel
runs out before the loop condition fails, and `some` of the final state when
the loop exits on its own. -/
def run (enc : Obs → String) (dev : DevIn) (interval duration t0 : ℚ)
    (env : ℕ → TickEnv) : ℕ → ℕ → LoopState → Option LoopState
  | 0, _, s => if s.t - t0 < duration then none else some s
  | fuel + 1, k, s =>
      if s.t - t0 < duration then
        run enc dev interval duration t0 env fuel (k + 1)
          (tick enc dev interval (env k) s)
      else some s

/-- The method `track_device(device, interval=60, duration=3600)` (lines 108-151):
records `start_time = t0`, prints the starting banner (the Python repr of the
device dict is abstracted away) and runs the loop from an empty in-memory log
over the pre-existing log-file contents `file0`. -/
def track_device (enc : Obs → String) (dev : DevIn) (interval duration t0 : ℚ)
    (env : ℕ → TickEnv) (fuel : ℕ) (file0 : List String) : Option LoopState :=
  run enc dev interval duration t0 env fuel 0
    { t := t0, logs := [], file := file0,
      console := ["Starting tracking for device"] }

/-- Python `str.split()` with no argument: split on whitespace runs and drop
empty pieces. -/
def pysplit (s : String) : List String :=
  (s.split fun c => c.isWhitespace).filter (fun w => w ≠ "")

/-- Python `sub in s` substring test, rendered through `splitOn`. -/
def pyContains (s sub : String) : Bool :=
  (s.splitOn sub).length ≥ 2

/-- The Windows branch of `detect_network_devices` (lines 30-42): skip the
first three lines of `arp -a` output, split each remaining line on
whitespace, and keep lines with at least three fields as
`{ip: parts[0], mac: parts[1], type: parts[2]}`. This parsing cannot raise. -/
def parseArp (out : String) : List Device :=
  ((out.splitOn ("\n")).drop 3).foldl
    (fun acc line =>
      match pysplit line with
      | p0 :: p1 :: p2 :: _ => acc ++ [{ ip := p0, mac := p1, ty := p2 }]
      | _ => acc)
    []

/-- The nmap-output parsing loop of the Linux/macOS branch (lines 51-61),
with its latent Python exceptions made explicit: reading `mac` can raise
`IndexError` when the line lacks the `"MAC Address: "` separator or has
nothing after it, and building the record can raise `NameError` when no
`"Nmap scan report for"` line has yet bound `ip`. -/
def parseNmapLines (ipVar : Option String) (acc : List Device) :
    List String → Except String (List Device)
  | [] => .ok acc
  | line :: rest =>
    if pyContains line ("Nmap scan report for") then
      match (pysplit line).getLast? with
      | some w => parseNmapLines (some w) acc rest
      | none => .error ("list index out of range")
    else if pyContains line ("MAC Address:") then
      match (line.splitOn ("MAC Address: ")).get? 1 with
      | none => .error ("list index out of range")
      | some rest1 =>
        match (pysplit rest1).get? 0 with
        | none => .error ("list index out of range")
        | some mac =>
          match ipVar with
          | none => .error ("name ip is not defined")
          | some ip =>
            parseNmapLines ipVar (acc ++ [{ ip := ip, mac := mac, ty := "Unknown" }]) rest
    else parseNmapLines ipVar acc rest

/-- Parse a whole nmap output, starting with `ip` unbound. -/
def parseNmapOut (out : String) : Except String (List Device) :=
  parseNmapLines none [] (out.splitOn ("\n"))

/-- Outcome of an external `subprocess.check_output` call: its stdout text, a
`FileNotFoundError` (tool missing), or any other exception such as
`CalledProcessError`. -/
inductive ProcOut where
  | ok (out : String)
  | notFound (msg : String)
  | err (msg : String)
deriving DecidableEq

/-- The method `detect_network_devices` (lines 19-73). The two external scans are passed
in as outcomes. On Windows any exception of the `arp` call reaches the outer
handler; on Linux/macOS a `FileNotFoundError` of `nmap` is caught by the
inner handler (falling through to return the still-empty list), while any
other exception of the call or of the parsing reaches the outer handler; an
unsupported OS returns `[]` directly. The second component is the console
output. -/
def detect_network_devices (system : String) (arpRes nmapRes : ProcOut) :
    List Device × List String :=
  let sys := system.toLower
  if sys = "windows" then
    match arpRes with
    | .ok out => (parseArp out, [])
    | .notFound msg => ([], ["Error detecting network devices: " ++ msg])
    | .err msg => ([], ["Error detecting network devices: " ++ msg])
  else if sys = "linux" ∨ sys = "darwin" then
    match nmapRes with
    | .ok out =>
      match parseNmapOut out with
      | .ok ds => (ds, [])
      | .error msg => ([], ["Error detecting network devices: " ++ msg])
    | .notFound _ =>
      ([], ["Nmap not installed. Please install nmap for network scanning."])
    | .err msg => ([], ["Error detecting network devices: " ++ msg])
  else ([], ["Unsupported OS: " ++ sys])

/-- The five lines printed for one observation by
`display_tracking_summary` (lines 162-167). -/
def recordBlock (ctime : ℚ → String) (log : Obs) : List String :=
  ["Time: " ++ ctime log.timestamp,
   "IP: " ++ log.ip,
   "MAC: " ++ log.mac,
   "Status: " ++ (if log.online then "Online" else "Offline"),
   "---"]

/-- The `for log in self.device_logs` print loop, one observation at a
time. -/
def summaryLoop (ctime : ℚ → String) : List Obs → List String
  | [] => []
  | log :: rest =>
    ("Time: " ++ ctime log.timestamp) ::
    ("IP: " ++ log.ip) ::
    ("MAC: " ++ log.mac) ::
    ("Status: " ++ (if log.online then "Online" else "Offline")) ::
    "---" ::
    summaryLoop ctime rest

/-- The method `display_tracking_summary` (lines 153-167) as the list of printed lines,
with `time.ctime` abstracted as the parameter `ctime`. -/
def display_tracking_summary (ctime : ℚ → String) (device_logs : List Obs) :
    List String :=
  if device_logs.isEmpty then ["No device tracking data available."]
  else "\n--- Device Tracking Summary ---" :: summaryLoop ctime device_logs

/-- A concrete stand-in for `json.dumps`, used in concrete runs. -/
def encTest : Obs → String := fun o => if o.online then "T" else "F"

/-- The tracked device used in concrete runs. -/
def devTest : DevIn := { ip := "192.168.1.50", mac := some ("AA:BB:CC:DD:EE:FF") }

/-- Environment whose ping always completes instantly with exit code 0 and
whose log-file append always succeeds. -/
def envAllOk : ℕ → TickEnv := fun _ =>
  { checkDur := 0, pingRes := some 0, writeOk := true, slack := 0, errMsg := "" }

/-- Environment whose ping always completes instantly with exit code 0 but
whose log-file append always fails. -/
def envWriteFail : ℕ → TickEnv := fun _ =>
  { checkDur := 0, pingRes := some 0, writeOk := false, slack := 0,
    errMsg := "disk full" }

/-- Environment whose ping call itself always raises. -/
def envPingFail : ℕ → TickEnv := fun _ =>
  { checkDur := 0, pingRes := none, writeOk := true, slack := 0,
    errMsg := "ping not found" }

/-- An empty loop state at time `0`, used to instantiate tick-level
theorems. -/
def s0Test : LoopState := { t := 0, logs := [], file := [], console := [] }

/-- The state reached by one tick of `track_device` under `envWriteFail` with
`interval = duration = 1` from time `0` over an empty log file. -/
def stateWriteFail : LoopState :=
  { t := 1,
    logs := [{ timestamp := 0, ip := "192.168.1.50", mac := "AA:BB:CC:DD:EE:FF",
               online := true }],
    file := [],
    console := ["Starting tracking for device",
                "Error tracking device 192.168.1.50: disk full"] }

/-- The state reached by one tick of `track_device` under `envAllOk` with
`interval = duration = 1` from time `0` over an empty log file. -/
def stateAllOk : LoopState :=
  { t := 1,
    logs := [{ timestamp := 0, ip := "192.168.1.50", mac := "AA:BB:CC:DD:EE:FF",
               online := true }],
    file := ["T"],
    console := ["Starting tracking for device",
                "Device 192.168.1.50 status: Online"] }

/-- A concrete stand-in for `time.ctime` in summary examples. -/
def ctimeTest : ℚ → String := fun _ => "timestr"

/-- Two concrete observations for summary examples. -/
def obsA : Obs := { timestamp := 0, ip := "10.0.0.1", mac := "aa", online := true }

def obsB : Obs := { timestamp := 1, ip := "10.0.0.2", mac := "bb", online := false }

/-- The clock always advances across a tick by the check time, the sleep and
the slack, whatever the tick's outcome. -/
theorem tick_t (enc : Obs → String) (dev : DevIn) (interval : ℚ) (e : TickEnv)
    (s : LoopState) :
    (tick enc dev interval e s).t = s.t + e.checkDur + interval + e.slack := by
  rw [tick]
  rcases e.pingRes with _ | rc
  · rfl
  · by_cases hw : e.writeOk
    · simp [hw]
    · simp [hw]

/-- A tick only ever appends to the in-memory log. -/
theorem tick_logs_extend (enc : Obs → String) (dev : DevIn) (interval : ℚ)
    (e : TickEnv) (s : LoopState) :
    ∃ tl, (tick enc dev interval e s).logs = s.logs ++ tl := by
  rw [tick]
  rcases e.pingRes with _ | rc
  · exact ⟨[], by simp⟩
  · by_cases hw : e.writeOk
    · exact ⟨[mkObs dev (s.t + e.checkDur) rc], by simp [hw]⟩
    · exact ⟨[mkObs dev (s.t + e.checkDur) rc], by simp [hw]⟩

/-- When the loop exits on its own, the final state fails the loop condition:
the elapsed time has reached the duration bound. -/
theorem run_exit_elapsed (enc : Obs → String) (dev : DevIn)
    (interval duration t0 : ℚ) (env : ℕ → TickEnv) :
    ∀ fuel k s s', run enc dev interval duration t0 env fuel k s = some s' →
      duration ≤ s'.t - t0 := by
  intro fuel
  induction fuel with
  | zero =>
    intro k s s' h
    rw [run] at h
    by_cases hc : s.t - t0 < duration
    · rw [if_pos hc] at h
      exact absurd h (by simp)
    · rw [if_neg hc] at h
      cases h
      exact le_of_not_lt hc
  | succ n ih =>
    intro k s s' h
    rw [run] at h
    by_cases hc : s.t - t0 < duration
    · rw [if_pos hc] at h
      exact ih (k + 1) _ s' h
    · rw [if_neg hc] at h
      cases h
      exact le_of_not_lt hc

/-- Unfolding equation for `run` at zero fuel. -/
theorem run_zero (enc : Obs → String) (dev : DevIn) (interval duration t0 : ℚ)
    (env : ℕ → TickEnv) (k : ℕ) (s : LoopState) :
    run enc dev interval duration t0 env 0 k s =
      if s.t - t0 < duration then none else some s := rfl

/-- Unfolding equation for `run` at positive fuel: one loop test, then one
tick and the recursive call, or exit. -/
theorem run_succ (enc : Obs → String) (dev : DevIn) (interval duration t0 : ℚ)
    (env : ℕ → TickEnv) (fuel k : ℕ) (s : LoopState) :
    run enc dev interval duration t0 env (fuel + 1) k s =
      if s.t - t0 < duration then
        run enc dev interval duration t0 env fuel (k + 1)
          (tick enc dev interval (env k) s)
      else some s := rfl

/-- A tick whose ping completes appends exactly one Observation, stamped with
the clock as it stands right after the check. -/
theorem tick_logs_some (enc : Obs → String) (dev : DevIn) (interval : ℚ)
    (e : TickEnv) (s : LoopState) (rc : ℤ) (hp : e.pingRes = some rc) :
    (tick enc dev interval e s).logs =
      s.logs ++ [mkObs dev (s.t + e.checkDur) rc] := by
  obtain ⟨cd, pr, w, sl, em⟩ := e
  cases hp
  cases w
  · rfl
  · rfl

/-- The loop only ever appends to the in-memory log: the log at any
intermediate state is a prefix of the final log. -/
theorem run_logs_extend (enc : Obs → String) (dev : DevIn)
    (interval duration t0 : ℚ) (env : ℕ → TickEnv) :
    ∀ fuel k s s', run enc dev interval duration t0 env fuel k s = some s' →
      ∃ tl, s'.logs = s.logs ++ tl := by
  intro fuel
  induction fuel with
  | zero =>
    intro k s s' h
    rw [run] at h
    by_cases hc : s.t - t0 < duration
    · rw [if_pos hc] at h
      exact absurd h (by simp)
    · rw [if_neg hc] at h
      cases h
      exact ⟨[], by simp⟩
  | succ n ih =>
    intro k s s' h
    rw [run] at h
    by_cases hc : s.t - t0 < duration
    · rw [if_pos hc] at h
      rcases ih (k + 1) _ s' h with ⟨tl2, htl2⟩
      rcases tick_logs_extend enc dev interval (env k) s with ⟨tl1, htl1⟩
      exact ⟨tl1 ++ tl2, by rw [htl2, htl1, List.append_assoc]⟩
    · rw [if_neg hc] at h
      cases h
      exact ⟨[], by simp⟩

/-- A tick whose file append succeeds preserves the correspondence between
the log file and the in-memory log. -/
theorem tick_file_inv (enc : Obs → String) (dev : DevIn) (interval : ℚ)
    (e : TickEnv) (s : LoopState) (f0 : List String)
    (hw : e.writeOk = true) (hs : s.file = f0 ++ s.logs.map enc) :
    (tick enc dev interval e s).file =
      f0 ++ ((tick enc dev interval e s).logs.map enc) := by
  obtain ⟨cd, pr, w, sl, em⟩ := e
  cases hw
  rcases pr with _ | rc
  · exact hs
  · rw [tick_logs_some enc dev interval _ s rc rfl]
    show s.file ++ [enc (mkObs dev (s.t + cd) rc)] =
      f0 ++ (s.logs ++ [mkObs dev (s.t + cd) rc]).map enc
    rw [hs]
    simp

/-- When every tick's file append succeeds, the loop preserves the
file/in-memory correspondence all the way to the final state. -/
theorem run_file_inv (enc : Obs → String) (dev : DevIn)
    (interval duration t0 : ℚ) (env : ℕ → TickEnv) (f0 : List String)
    (hw : ∀ n, (env n).writeOk = true) :
    ∀ fuel k s s', s.file = f0 ++ s.logs.map enc →
      run enc dev interval duration t0 env fuel k s = some s' →
      s'.file = f0 ++ s'.logs.map enc := by
  intro fuel
  induction fuel with
  | zero =>
    intro k s s' hs h
    rw [run_zero] at h
    by_cases hc : s.t - t0 < duration
    · rw [if_pos hc] at h
      exact absurd h (by simp)
    · rw [if_neg hc] at h
      cases h
      exact hs
  | succ n ih =>
    intro k s s' hs h
    rw [run_succ] at h
    by_cases hc : s.t - t0 < duration
    · rw [if_pos hc] at h
      exact ih (k + 1) _ s' (tick_file_inv enc dev interval (env k) s f0 (hw k) hs) h
    · rw [if_neg hc] at h
      cases h
      exact hs

/-- With a positive interval and nonnegative check times and slacks, enough
fuel makes the loop exit on its own: each iteration advances the clock by at
least `interval`. -/
theorem run_total (enc : Obs → String) (dev : DevIn)
    (interval duration t0 : ℚ) (env : ℕ → TickEnv)
    (henv : ∀ n, 0 ≤ (env n).checkDur ∧ 0 ≤ (env n).slack) :
    ∀ (fuel k : ℕ) (s : LoopState),
      duration ≤ s.t - t0 + (fuel : ℚ) * interval →
      ∃ s', run enc dev interval duration t0 env fuel k s = some s' := by
  intro fuel
  induction fuel with
  | zero =>
    intro k s hle
    rw [run_zero]
    have hc : ¬ s.t - t0 < duration := by
      push_cast at hle
      intro hlt
      linarith
    rw [if_neg hc]
    exact ⟨s, rfl⟩
  | succ n ih =>
    intro k s hle
    rw [run_succ]
    by_cases hc : s.t - t0 < duration
    · rw [if_pos hc]
      refine ih (k + 1) (tick enc dev interval (env k) s) ?_
      rw [tick_t]
      rcases henv k with ⟨h1, h2⟩
      push_cast at hle ⊢
      linarith
    · rw [if_neg hc]
      exact ⟨s, rfl⟩

/-- The print loop of the summary emits exactly one five-line block per
observation, in input order. -/
theorem summaryLoop_eq (ctime : ℚ → String) (logs : List Obs) :
    summaryLoop ctime logs = logs.flatMap (recordBlock ctime) := by
  induction logs with
  | nil => rfl
  | cons log rest ih =>
    rw [summaryLoop, List.flatMap_cons, ← ih]
    rfl

/-- Concrete evaluation: one tick with a successful ping and a failing file
append, from time `0` with `interval = duration = 1`. -/
theorem run_writeFail_eval :
    track_device encTest devTest 1 1 0 envWriteFail 1 [] = some stateWriteFail := by
  rw [track_device, show (1 : ℕ) = 0 + 1 from rfl, run_succ, run_zero]
  norm_num [tick, envWriteFail, mkObs, errLine, devTest, stateWriteFail]
  decide

/-- Concrete evaluation: one fully successful tick from time `0` with
`interval = duration = 1`. -/
theorem run_allOk_eval :
    track_device encTest devTest 1 1 0 envAllOk 1 [] = some stateAllOk := by
  rw [track_device, show (1 : ℕ) = 0 + 1 from rfl, run_succ, run_zero]
  norm_num [tick, envAllOk, mkObs, errLine, devTest, encTest, stateAllOk]
  decide

end Loc

open Loc

/-- C1 counterexample: adding the same device by its `mac` twice succeeds both
times and grows the registry, because the duplicate check only compares the
identifier with `ip or mac` (which is the nonempty `ip`). The claim that the
second call returns `false` with the registry unchanged is false here. -/
theorem add_twice_same_mac_succeeds_twice :
    (add_device_to_track cexScan ("AA:BB:CC:DD:EE:FF") []).1 = true ∧
    (add_device_to_track cexScan ("AA:BB:CC:DD:EE:FF")
      (add_device_to_track cexScan ("AA:BB:CC:DD:EE:FF") []).2).1 = true ∧
    (add_device_to_track cexScan ("AA:BB:CC:DD:EE:FF")
      (add_device_to_track cexScan ("AA:BB:CC:DD:EE:FF") []).2).2.length = 2 := by
  constructor
  · rfl
  constructor
  · rfl
  · rfl

/-- C1 (amended): when the identifier of a successful add equals the identity
key of the device that was appended (its `ip` when nonempty, else its `mac`),
the second call with the same identifier returns `false` and leaves the
registry exactly as it was after the first call. -/
theorem add_twice_same_key_fails_second (scan : List Device)
    (tracked : List Device) (x : String) (d : Device)
    (h1 : add_device_to_track scan x tracked = (true, tracked ++ [d]))
    (hk : identityKey d = x) :
    add_device_to_track scan x (tracked ++ [d]) = (false, tracked ++ [d]) := by
  have hx : x ≠ "" := by
    intro hx
    rw [add_device_to_track, if_pos hx] at h1
    exact Bool.false_ne_true (congrArg Prod.fst h1)
  have hmem : x ∈ (tracked ++ [d]).map identityKey := by
    rw [List.map_append]
    exact List.mem_append_right _ (by simp [hk])
  rw [add_device_to_track, if_neg hx, if_pos hmem]

/-- Witness for the amended C1 at the concrete scan: adding by the ip (which
is the identity key) succeeds once, then fails with the registry unchanged. -/
theorem add_twice_same_key_fails_second_witness :
    add_device_to_track cexScan ("192.168.1.50") [cexDevice] =
      (false, [cexDevice]) := by
  have h := add_twice_same_key_fails_second cexScan [] ("192.168.1.50") cexDevice
    (by rfl) (by rfl)
  simpa using h

/-- C4: `add_device_to_track` returns `false` exactly when the identifier is
empty, or matches a tracked device's identity key, or no scanned device has
that `ip` or `mac`; otherwise it appends the first matching device and returns
`true`; and on an empty scan it returns `false` for every identifier. -/
theorem add_false_iff (scan : List Device) (x : String) (tracked : List Device) :
    ((add_device_to_track scan x tracked).1 = false ↔
      (x = "" ∨ x ∈ tracked.map identityKey ∨
        ∀ d ∈ scan, d.ip ≠ x ∧ d.mac ≠ x)) ∧
    ((add_device_to_track scan x tracked).1 = true →
      ∃ d, scan.find? (fun d => d.ip = x ∨ d.mac = x) = some d ∧
        (add_device_to_track scan x tracked).2 = tracked ++ [d]) ∧
    (add_device_to_track [] x tracked).1 = false := by
  refine ⟨?_, ?_, ?_⟩
  · by_cases hx : x = ""
    · simp [add_device_to_track, hx]
    · by_cases hmem : x ∈ tracked.map identityKey
      · simp [add_device_to_track, hx, hmem]
      · rw [add_device_to_track, if_neg hx, if_neg hmem]
        rcases hfind : scan.find? (fun d => d.ip = x ∨ d.mac = x) with _ | d
        · rw [hfind]
          simp only [List.find?_eq_none] at hfind
          constructor
          · intro _
            refine Or.inr (Or.inr fun d hd => ?_)
            have h2 := hfind d hd
            simp only [decide_eq_true_eq] at h2
            push_neg at h2
            exact h2
          · intro _
            rfl
        · rw [hfind]
          have hd := List.find?_some hfind
          simp only [decide_eq_true_eq] at hd
          have hmemd := List.mem_of_find?_eq_some hfind
          constructor
          · intro hcontra
            simp at hcontra
          · intro hor
            exfalso
            rcases hor with h | h | h
            · exact hx h
            · exact hmem h
            · rcases h d hmemd with ⟨hip, hmac⟩
              rcases hd with h2 | h2
              · exact hip h2
              · exact hmac h2
  · intro htrue
    by_cases hx : x = ""
    · rw [add_device_to_track, if_pos hx] at htrue ⊢
      exact absurd htrue (by simp)
    · by_cases hmem : x ∈ tracked.map identityKey
      · rw [add_device_to_track, if_neg hx, if_pos hmem] at htrue ⊢
        exact absurd htrue (by simp)
      · rw [add_device_to_track, if_neg hx, if_neg hmem] at htrue ⊢
        rcases hfind : scan.find? (fun d => d.ip = x ∨ d.mac = x) with _ | d
        · rw [hfind] at htrue
          exact absurd htrue (by simp)
        · rw [hfind]
          exact ⟨d, rfl, rfl⟩
  · rw [add_device_to_track]
    by_cases hx : x = ""
    · rw [if_pos hx]
    · rw [if_neg hx]
      by_cases hmem : x ∈ tracked.map identityKey
      · rw [if_pos hmem]
      · rw [if_neg hmem]
        rfl

/-- Witness for C4 at concrete inputs: the spec's own scenario — add by ip
succeeds, a second add by ip fails, and an absent identifier fails. -/
theorem add_false_iff_witness :
    ((add_device_to_track cexScan ("192.168.1.50") []).1 = false ↔
      ("192.168.1.50" = "" ∨ "192.168.1.50" ∈ ([] : List Device).map identityKey ∨
        ∀ d ∈ cexScan, d.ip ≠ "192.168.1.50" ∧ d.mac ≠ "192.168.1.50")) ∧
    ((add_device_to_track cexScan ("192.168.1.50") []).1 = true →
      ∃ d, cexScan.find? (fun d => d.ip = "192.168.1.50" ∨ d.mac = "192.168.1.50") = some d ∧
        (add_device_to_track cexScan ("192.168.1.50") []).2 = [] ++ [d]) ∧
    (add_device_to_track [] "192.168.1.50" []).1 = false :=
  add_false_iff cexScan ("192.168.1.50") []

/-- C2 counterexample: one tick whose ping succeeds but whose log-file append
fails leaves an Observation in the in-memory log with no corresponding line
in the log file, so the claimed invariant is not maintained by a tick in
which an error occurs. -/
theorem obs_in_memory_without_file_line :
    track_device encTest devTest 1 1 0 envWriteFail 1 [] = some stateWriteFail ∧
    stateWriteFail.logs.length = 1 ∧
    stateWriteFail.file = [] ∧
    stateWriteFail.file ≠ stateWriteFail.logs.map encTest := by
  refine ⟨run_writeFail_eval, rfl, rfl, ?_⟩
  decide

/-- C2 (amended): when every tick's log-file append succeeds, every
Observation in memory has its encoded line in the log file, byte-equivalent
and in the same order, after the pre-existing contents — an invariant
maintained through the whole run, including ticks whose reachability check
fails. A failed file append breaks it. -/
theorem log_file_matches_memory (enc : Obs → String) (dev : DevIn)
    (interval duration t0 : ℚ) (env : ℕ → TickEnv) (fuel : ℕ)
    (file0 : List String) (s' : LoopState)
    (hw : ∀ n, (env n).writeOk = true)
    (h : track_device enc dev interval duration t0 env fuel file0 = some s') :
    s'.file = file0 ++ s'.logs.map enc :=
  run_file_inv enc dev interval duration t0 env file0 hw fuel 0
    { t := t0, logs := [], file := file0,
      console := ["Starting tracking for device"] }
    s' (by simp) h

/-- Witness for the amended C2: after one fully successful tick the file is
exactly the encodings of the in-memory observations. -/
theorem log_file_matches_memory_witness :
    stateAllOk.file = [] ++ stateAllOk.logs.map encTest :=
  log_file_matches_memory encTest devTest 1 1 0 envAllOk 1 [] stateAllOk
    (fun _ => rfl) run_allOk_eval

/-- C3: with a scripted check that completes instantly on every tick, an
interval `i > 0` and a duration strictly between `2*i` and `3*i`, the poller
produces exactly 3 Observations with strictly increasing timestamps. -/
theorem scripted_poll_three_observations (enc : Obs → String) (dev : DevIn)
    (i d t0 : ℚ) (env : ℕ → TickEnv)
    (hi : 0 < i) (hd2 : 2 * i < d) (hd3 : d < 3 * i)
    (henv : ∀ n, (env n).checkDur = 0 ∧ (env n).slack = 0 ∧
      ((env n).pingRes).isSome = true) :
    ∃ s', track_device enc dev i d t0 env 3 [] = some s' ∧
      s'.logs.length = 3 ∧
      List.Chain' (fun a b => a.timestamp < b.timestamp) s'.logs := by
  obtain ⟨rc0, hp0⟩ := Option.isSome_iff_exists.mp (henv 0).2.2
  obtain ⟨rc1, hp1⟩ := Option.isSome_iff_exists.mp (henv (0 + 1)).2.2
  obtain ⟨rc2, hp2⟩ := Option.isSome_iff_exists.mp (henv (0 + 1 + 1)).2.2
  set s0 : LoopState :=
    { t := t0, logs := [], file := [],
      console := ["Starting tracking for device"] } with hs0
  set s1 := tick enc dev i (env 0) s0 with hs1
  set s2 := tick enc dev i (env (0 + 1)) s1 with hs2
  set s3 := tick enc dev i (env (0 + 1 + 1)) s2 with hs3
  have ht1 : s1.t = t0 + i := by
    rw [hs1, tick_t, (henv 0).1, (henv 0).2.1]
    show t0 + 0 + i + 0 = t0 + i
    ring
  have ht2 : s2.t = t0 + i + i := by
    rw [hs2, tick_t, (henv (0 + 1)).1, (henv (0 + 1)).2.1, ht1]
    ring
  have ht3 : s3.t = t0 + i + i + i := by
    rw [hs3, tick_t, (henv (0 + 1 + 1)).1, (henv (0 + 1 + 1)).2.1, ht2]
    ring
  have hl1 : s1.logs = [mkObs dev t0 rc0] := by
    rw [hs1, tick_logs_some enc dev i (env 0) s0 rc0 hp0, (henv 0).1]
    show ([] : List Obs) ++ [mkObs dev (t0 + 0) rc0] = [mkObs dev t0 rc0]
    simp
  have hl2 : s2.logs = [mkObs dev t0 rc0, mkObs dev (t0 + i) rc1] := by
    rw [hs2, tick_logs_some enc dev i (env (0 + 1)) s1 rc1 hp1, hl1, ht1,
      (henv (0 + 1)).1]
    simp
  have hl3 : s3.logs =
      [mkObs dev t0 rc0, mkObs dev (t0 + i) rc1, mkObs dev (t0 + i + i) rc2] := by
    rw [hs3, tick_logs_some enc dev i (env (0 + 1 + 1)) s2 rc2 hp2, hl2, ht2,
      (henv (0 + 1 + 1)).1]
    simp
  have hc0 : s0.t - t0 < d := by
    show t0 - t0 < d
    linarith
  have hc1 : s1.t - t0 < d := by
    rw [ht1]
    linarith
  have hc2 : s2.t - t0 < d := by
    rw [ht2]
    linarith
  have hc3 : ¬ s3.t - t0 < d := by
    rw [ht3]
    intro hcon
    linarith
  have hrun : track_device enc dev i d t0 env 3 [] = some s3 := by
    calc track_device enc dev i d t0 env 3 []
        = run enc dev i d t0 env (2 + 1) 0 s0 := rfl
      _ = run enc dev i d t0 env (1 + 1) (0 + 1) s1 := by
            rw [run_succ, if_pos hc0, hs1]
      _ = run enc dev i d t0 env (0 + 1) (0 + 1 + 1) s2 := by
            rw [run_succ, if_pos hc1, hs2]
      _ = run enc dev i d t0 env 0 (0 + 1 + 1 + 1) s3 := by
            rw [run_succ, if_pos hc2, hs3]
      _ = some s3 := by
            rw [run_zero, if_neg hc3]
  refine ⟨s3, hrun, ?_, ?_⟩
  · rw [hl3]
    rfl
  · rw [hl3]
    simp only [List.chain'_cons, List.chain'_singleton, and_true, mkObs]
    constructor
    · linarith
    · linarith

/-- Witness for C3 at `i = 1`, `d = 5/2`, start time `0` and the all-success
environment. -/
theorem scripted_poll_three_observations_witness :
    ∃ s', track_device encTest devTest 1 (5 / 2) 0 envAllOk 3 [] = some s' ∧
      s'.logs.length = 3 ∧
      List.Chain' (fun a b => a.timestamp < b.timestamp) s'.logs :=
  scripted_poll_three_observations encTest devTest 1 (5 / 2) 0 envAllOk
    (by norm_num) (by norm_num) (by norm_num) (fun _ => ⟨rfl, rfl, rfl⟩)

/-- C5: a tick whose reachability check raises is caught: nothing is
recorded, the failure is printed to the console, the clock still advances by
the check time, the sleep and the slack, the loop recurses into the next
tick instead of exiting, and the loop exits only when the elapsed time
reaches the duration bound. -/
theorem ping_failure_caught_loop_continues (enc : Obs → String) (dev : DevIn)
    (interval : ℚ) (e : TickEnv) (s : LoopState) (hp : e.pingRes = none) :
    (tick enc dev interval e s).logs = s.logs ∧
    (tick enc dev interval e s).file = s.file ∧
    (tick enc dev interval e s).console = s.console ++ [errLine dev e] ∧
    (tick enc dev interval e s).t = s.t + e.checkDur + interval + e.slack ∧
    (∀ (duration t0 : ℚ) (env : ℕ → TickEnv) (fuel k : ℕ),
      s.t - t0 < duration → env k = e →
      run enc dev interval duration t0 env (fuel + 1) k s =
        run enc dev interval duration t0 env fuel (k + 1)
          (tick enc dev interval e s)) ∧
    (∀ (duration t0 : ℚ) (env : ℕ → TickEnv) (fuel k : ℕ)
      (s1 s' : LoopState),
      run enc dev interval duration t0 env fuel k s1 = some s' →
      duration ≤ s'.t - t0) := by
  obtain ⟨cd, pr, w, sl, em⟩ := e
  cases hp
  refine ⟨rfl, rfl, rfl, rfl, ?_, ?_⟩
  · intro duration t0 env fuel k hc he
    rw [run_succ, if_pos hc, he]
  · intro duration t0 env fuel k s1 s' h
    exact run_exit_elapsed enc dev interval duration t0 env fuel k s1 s' h

/-- Witness for C5: a raising ping at the empty start state changes neither
the in-memory log nor the file. -/
theorem ping_failure_caught_loop_continues_witness :
    (tick encTest devTest 1 (envPingFail 0) s0Test).logs = s0Test.logs ∧
    (tick encTest devTest 1 (envPingFail 0) s0Test).file = s0Test.file :=
  ⟨(ping_failure_caught_loop_continues encTest devTest 1 (envPingFail 0)
      s0Test rfl).1,
   (ping_failure_caught_loop_continues encTest devTest 1 (envPingFail 0)
      s0Test rfl).2.1⟩

/-- C8: the Observation built by a tick whose ping completes has `online`
equal to (exit code == 0), `ip` the tracked device's ip, `mac` the device's
mac or "Unknown" when the record has none, and the tick's clock as its
timestamp; and it is never mutated afterwards: any continuation of the run
only appends after it. -/
theorem observation_fields_immutable (enc : Obs → String) (dev : DevIn)
    (interval : ℚ) (e : TickEnv) (s : LoopState) (rc : ℤ)
    (hp : e.pingRes = some rc) :
    (tick enc dev interval e s).logs =
      s.logs ++ [{ timestamp := s.t + e.checkDur, ip := dev.ip,
                   mac := dev.mac.getD ("Unknown"), online := rc == 0 }] ∧
    (∀ (duration t0 : ℚ) (env : ℕ → TickEnv) (fuel k : ℕ) (s' : LoopState),
      run enc dev interval duration t0 env fuel k
        (tick enc dev interval e s) = some s' →
      ∃ tl, s'.logs = s.logs ++
        [{ timestamp := s.t + e.checkDur, ip := dev.ip,
           mac := dev.mac.getD ("Unknown"), online := rc == 0 }] ++ tl) := by
  have h1 := tick_logs_some enc dev interval e s rc hp
  constructor
  · exact h1
  · intro duration t0 env fuel k s' h
    rcases run_logs_extend enc dev interval duration t0 env fuel k _ s' h
      with ⟨tl, htl⟩
    exact ⟨tl, by simp [htl, h1, mkObs]⟩

/-- Witness for C8: one successful tick from the empty start state appends
exactly the Observation with the documented fields. -/
theorem observation_fields_immutable_witness :
    (tick encTest devTest 1 (envAllOk 0) s0Test).logs =
      s0Test.logs ++ [{ timestamp := s0Test.t + (envAllOk 0).checkDur,
                        ip := devTest.ip,
                        mac := devTest.mac.getD ("Unknown"),
                        online := ((0 : ℤ) == 0) }] :=
  (observation_fields_immutable encTest devTest 1 (envAllOk 0) s0Test 0 rfl).1

/-- C9: for every device, positive interval, finite duration, start time and
well-behaved environment (nonnegative check times and slacks), the tracking
loop exits on its own with enough fuel: each iteration advances the clock by
at least the interval, so the loop condition eventually fails. -/
theorem tracking_loop_terminates (enc : Obs → String) (dev : DevIn)
    (interval duration t0 : ℚ) (env : ℕ → TickEnv) (file0 : List String)
    (hi : 0 < interval)
    (henv : ∀ n, 0 ≤ (env n).checkDur ∧ 0 ≤ (env n).slack) :
    ∃ (fuel : ℕ) (s' : LoopState),
      track_device enc dev interval duration t0 env fuel file0 = some s' := by
  have harg : duration ≤
      (LoopState.mk t0 [] file0 ["Starting tracking for device"]).t - t0 +
        ((⌈duration / interval⌉₊ : ℚ)) * interval := by
    show duration ≤ t0 - t0 + ((⌈duration / interval⌉₊ : ℚ)) * interval
    have h1 : duration / interval ≤ ((⌈duration / interval⌉₊ : ℚ)) :=
      Nat.le_ceil _
    have h2 : duration / interval * interval ≤
        ((⌈duration / interval⌉₊ : ℚ)) * interval :=
      mul_le_mul_of_nonneg_right h1 (le_of_lt hi)
    rw [div_mul_cancel₀ duration (ne_of_gt hi)] at h2
    linarith
  obtain ⟨s', hs'⟩ := run_total enc dev interval duration t0 env henv
    ⌈duration / interval⌉₊ 0
    (LoopState.mk t0 [] file0 ["Starting tracking for device"]) harg
  exact ⟨⌈duration / interval⌉₊, s', hs'⟩

/-- Witness for C9 at interval 1, duration 1, the all-success instant
environment. -/
theorem tracking_loop_terminates_witness :
    ∃ (fuel : ℕ) (s' : LoopState),
      track_device encTest devTest 1 1 0 envAllOk fuel [] = some s' :=
  tracking_loop_terminates encTest devTest 1 1 0 envAllOk [] (by norm_num)
    (fun _ => ⟨le_refl 0, le_refl 0⟩)

/-- C10: when the ping completes but the log-file append fails, the
Observation already sits in the in-memory log (the append happens before the
write is attempted), the file is unchanged, the same per-tick handler prints
the error, and with the loop condition still true the loop proceeds to the
next tick. -/
theorem write_failure_keeps_memory (enc : Obs → String) (dev : DevIn)
    (interval : ℚ) (e : TickEnv) (s : LoopState) (rc : ℤ)
    (hp : e.pingRes = some rc) (hw : e.writeOk = false) :
    (tick enc dev interval e s).logs =
      s.logs ++ [mkObs dev (s.t + e.checkDur) rc] ∧
    (tick enc dev interval e s).file = s.file ∧
    (tick enc dev interval e s).console = s.console ++ [errLine dev e] ∧
    (∀ (duration t0 : ℚ) (env : ℕ → TickEnv) (fuel k : ℕ),
      s.t - t0 < duration → env k = e →
      run enc dev interval duration t0 env (fuel + 1) k s =
        run enc dev interval duration t0 env fuel (k + 1)
          (tick enc dev interval e s)) := by
  obtain ⟨cd, pr, w, sl, em⟩ := e
  cases hp
  subst hw
  refine ⟨rfl, rfl, rfl, ?_⟩
  intro duration t0 env fuel k hc he
  rw [run_succ, if_pos hc, he]

/-- Witness for C10: the write-failure tick from the empty start state keeps
the file unchanged. -/
theorem write_failure_keeps_memory_witness :
    (tick encTest devTest 1 (envWriteFail 0) s0Test).file = s0Test.file :=
  (write_failure_keeps_memory encTest devTest 1 (envWriteFail 0) s0Test 0
    rfl rfl).2.1

/-- C6: `detect_network_devices` never raises: for every platform string and
every behaviour of the external scan tools, either a successful scan's parsed
device list is returned with no complaint, or the empty list is returned
after a console report of the failure condition. -/
theorem detect_returns_or_reports (system : String) (arpRes nmapRes : ProcOut) :
    (∃ out, system.toLower = "windows" ∧ arpRes = ProcOut.ok out ∧
      detect_network_devices system arpRes nmapRes = (parseArp out, [])) ∨
    (∃ out ds, (system.toLower = "linux" ∨ system.toLower = "darwin") ∧
      nmapRes = ProcOut.ok out ∧ parseNmapOut out = Except.ok ds ∧
      detect_network_devices system arpRes nmapRes = (ds, [])) ∨
    ((detect_network_devices system arpRes nmapRes).1 = [] ∧
      (detect_network_devices system arpRes nmapRes).2 ≠ []) := by
  by_cases hw : system.toLower = "windows"
  · rcases arpRes with out | msg | msg
    · exact Or.inl ⟨out, hw, rfl, by simp [detect_network_devices, hw]⟩
    · exact Or.inr (Or.inr
        (by constructor <;> simp [detect_network_devices, hw]))
    · exact Or.inr (Or.inr
        (by constructor <;> simp [detect_network_devices, hw]))
  · by_cases hl : system.toLower = "linux" ∨ system.toLower = "darwin"
    · rcases nmapRes with out | msg | msg
      · rcases hp : parseNmapOut out with msg | ds
        · exact Or.inr (Or.inr
            (by constructor <;> simp [detect_network_devices, hw, hl, hp]))
        · exact Or.inr (Or.inl ⟨out, ds, hl, rfl, hp,
            by simp [detect_network_devices, hw, hl, hp]⟩)
      · exact Or.inr (Or.inr
          (by constructor <;> simp [detect_network_devices, hw, hl]))
      · exact Or.inr (Or.inr
          (by constructor <;> simp [detect_network_devices, hw, hl]))
    · exact Or.inr (Or.inr
        (by constructor <;> simp [detect_network_devices, hw, hl]))

/-- C7: on the empty log the summary prints only the "no data" message; on a
non-empty log it prints the header followed by exactly one five-line record
block per observation, in input order, each block showing the human-readable
time, ip, mac and the Online/Offline label. -/
theorem summary_no_data_and_blocks (ctime : ℚ → String)
    (device_logs : List Obs) :
    display_tracking_summary ctime [] = ["No device tracking data available."] ∧
    (device_logs ≠ [] →
      display_tracking_summary ctime device_logs =
        "\n--- Device Tracking Summary ---" ::
          device_logs.flatMap (recordBlock ctime)) := by
  constructor
  · rfl
  · intro hne
    rw [display_tracking_summary, if_neg (by simpa using hne)]
    rw [summaryLoop_eq]

/-- Witness for C7: two observations produce the header and exactly their two
record blocks in input order. -/
theorem summary_no_data_and_blocks_witness :
    display_tracking_summary ctimeTest [obsA, obsB] =
      "\n--- Device Tracking Summary ---" ::
        [obsA, obsB].flatMap (recordBlock ctimeTest) :=
  (summary_no_data_and_blocks ctimeTest [obsA, obsB]).2 (by simp)
